import Mathlib

/-!
Shallow embedding of the indigo-web-camera core (frame ring buffer, fusion
engine, capture orchestrator, profile cache, EXIF orientation codec) and
proofs of the spec claims about it.

Conventions:
* JavaScript numbers appearing in exact integer roles are embedded as `ℕ`/`ℤ`;
  exact fractional arithmetic (frame averaging weights, exposure times) as `ℚ`;
  the transcendental gamma pipeline (`Math.pow(_, 2.2)`) as `ℝ` with `rpow`.
* `ImageData` pixel stores go through `Uint8ClampedArray` semantics
  (clamp to [0,255], round half to even); `x | 0` on a nonnegative float is
  `Int.floor`.
* Byte buffers (`Uint8Array`) are `List ℕ`; out-of-range reads give
  `undefined` (modelled with `Option`/default-0 where the source coerces), and
  out-of-range writes are dropped, as for JavaScript typed arrays.
-/

namespace IndigoCam

/-! ### Frame ring buffer — `startFrameBuffer` in `useAdvancedCapture.ts`

`frameBufferRef.current.push(imageData); if (length > 32) shift();` -/

/-- One loop iteration of the frame-buffer capture: append the freshly
rasterized frame, then drop the oldest frame if the buffer now exceeds 32. -/
def pushFrame (buf : List α) (f : α) : List α :=
  let b := buf ++ [f]
  if 32 < b.length then b.tail else b

/-- Run the capture loop from an empty buffer over a whole sequence of frames
(oldest first), as `startFrameBuffer` does across animation ticks. -/
def runFrameBuffer (fs : List α) : List α :=
  fs.foldl pushFrame []




/-! ### Long-exposure sampling — `captureLongExposure` in `useAdvancedCapture.ts`

`const frameInterval = 100; const frameCount = Math.max(1, Math.floor((exposureTime * 1000) / frameInterval));`
followed by a `for` loop pushing one sampled frame per iteration. -/

/-- `frameInterval` (ms) in `captureLongExposure`. -/
def frameInterval : ℚ := 100

/-- The number of frames the long-exposure loop collects:
`Math.max(1, Math.floor((exposureTime * 1000) / frameInterval))`. -/
def longExposureFrameCount (exposureTime : ℚ) : ℤ :=
  max 1 ⌊exposureTime * 1000 / frameInterval⌋

/-- The `for (let i = 0; i < frameCount; i++) { ...; frames.push(...) }` loop
body: after `n` iterations the list holds the samples for indices `0..n-1`
in push order. -/
def longExposureLoop (sampler : ℕ → α) : ℕ → List α
  | 0 => []
  | n + 1 => longExposureLoop sampler n ++ [sampler n]

/-- The sample list the long-exposure capture builds: one frame per loop index
`i < frameCount`, drawn from the live video (`sampler i` is the frame the
`i`-th `drawImage`/`getImageData` pair observes). -/
def captureLongExposureFrames (sampler : ℕ → α) (exposureTime : ℚ) : List α :=
  longExposureLoop sampler (longExposureFrameCount exposureTime).toNat


/-! ### Profile cache — `capabilityCache` module (`getCachedProfile`, `setCachedProfile`) -/

/-- `CachedLastApplied` from the capability cache module. -/
structure CachedLastApplied where
  width : ℚ
  height : ℚ
  aspectRatio : Option ℚ
  frameRate : Option ℚ
  deriving DecidableEq

/-- Shallow snapshot of `MediaTrackCapabilities` (the four fields
`shallowSnapshotCapabilities` copies). -/
structure CapabilitySnapshot where
  width : Option ℚ
  height : Option ℚ
  aspectRatio : Option ℚ
  frameRate : Option ℚ
  deriving DecidableEq

/-- `CachedCapabilities` cache entry. -/
structure CachedCapabilities where
  lastApplied : Option CachedLastApplied
  timestamp : ℤ
  capabilities : Option CapabilitySnapshot
  deriving DecidableEq

/-- Argument of `setCachedProfile`:
`Omit<CachedCapabilities, "timestamp"> & { timestamp?: number }` — every field
optional-or-overriding. -/
structure CacheSetData where
  lastApplied : Option CachedLastApplied
  timestamp : Option ℤ
  capabilities : Option CapabilitySnapshot

/-- The module-level `Map<string, CachedCapabilities>`, as an association list. -/
abbrev Cache : Type := List (String × CachedCapabilities)

/-- `cache.get(deviceId)` -/
def cacheLookup (c : Cache) (k : String) : Option CachedCapabilities :=
  List.lookup k c

/-- `cache.delete(deviceId)` -/
def cacheErase (c : Cache) (k : String) : Cache :=
  (c : List (String × CachedCapabilities)).filter (fun e => e.1 ≠ k)

/-- `cache.set(deviceId, v)` -/
def cacheStore (c : Cache) (k : String) (v : CachedCapabilities) : Cache :=
  (k, v) :: cacheErase c k

/-- `isStale(entry, now, maxAge) = now - entry.timestamp > maxAge` -/
def isStale (entry : CachedCapabilities) (now maxAge : ℤ) : Prop :=
  maxAge < now - entry.timestamp

instance (entry : CachedCapabilities) (now maxAge : ℤ) :
    Decidable (isStale entry now maxAge) := by
  unfold isStale; infer_instance

/-- `MAX_AGE_MS = 10 * 60 * 1000` -/
def MAX_AGE_MS : ℤ := 10 * 60 * 1000

/-- `getCachedProfile`: returns the entry if fresh, drops it (mutating the
cache) if stale. State-passing rendering of the `Map` mutation: the result is
the returned profile together with the cache after the call. -/
def getCachedProfile (c : Cache) (now : ℤ) (deviceId : String)
    (maxAgeMs : ℤ) : Option CachedCapabilities × Cache :=
  match cacheLookup c deviceId with
  | none => (none, c)
  | some entry =>
    if isStale entry now maxAgeMs then (none, cacheErase c deviceId)
    else (some entry, c)

/-- The merged entry `{...existing, ...data, timestamp: data.timestamp ?? Date.now()}`
built by `setCachedProfile`. -/
def mergeProfile (existing : Option CachedCapabilities) (data : CacheSetData)
    (now : ℤ) : CachedCapabilities where
  lastApplied := data.lastApplied.orElse fun _ => existing.bind (·.lastApplied)
  capabilities := data.capabilities.orElse fun _ => existing.bind (·.capabilities)
  timestamp := data.timestamp.getD now

/-- `setCachedProfile` -/
def setCachedProfile (c : Cache) (now : ℤ) (deviceId : String)
    (data : CacheSetData) : Cache :=
  cacheStore c deviceId (mergeProfile (cacheLookup c deviceId) data now)


/-! ### Fusion engine — `mergeFrames`, `mergeFramesWithMotionBlur`,
`accumulateAndToneMap` in `useAdvancedCapture.ts`

An `ImageData` is a flat RGBA byte array plus dimensions; `data` is total on
`ℕ` with the convention that indices outside `0..4*width*height-1` read 0, as
a JavaScript typed array read coerced through arithmetic does. -/

/-- `ImageData`: interleaved 8-bit RGBA pixels. -/
structure ImageData where
  width : ℕ
  height : ℕ
  data : ℕ → ℕ

/-- Storing a float into a `Uint8ClampedArray` slot: clamp to `[0, 255]`,
then round to the nearest integer, ties to even (WebIDL clamped conversion). -/
def u8ClampStore (q : ℚ) : ℕ :=
  if q ≤ 0 then 0
  else if 255 ≤ q then 255
  else
    let f : ℕ := ⌊q⌋.toNat
    let r : ℚ := q - ⌊q⌋
    if r < 1/2 then f
    else if 1/2 < r then f + 1
    else if f % 2 = 0 then f else f + 1

/-- `mergeFrames` (night-mode average merge): per channel,
`mergedData[i] = (Σ_f frame.data[i]) / frames.length`, stored clamped.
Returns `none` when `frames.length === 0` (the source then leaves the canvas
untouched and never calls `putImageData`). -/
def mergeFrames (frames : List ImageData) (width height : ℕ) : Option ImageData :=
  if frames.length = 0 then none
  else some
    { width := width, height := height,
      data := fun i =>
        if i < width * height * 4 then
          u8ClampStore
            (((frames.map (fun fr => (fr.data i : ℚ))).sum) / (frames.length : ℚ))
        else 0 }

/-- `mergeFramesWithMotionBlur` (long-exposure weighted merge): the `i`-th
frame of the slice gets weight `1 / (i + 1)`; per channel the output is
`(Σ_i frame_i.data · w_i) / (Σ_i w_i)`, stored clamped. -/
def mergeFramesWithMotionBlur (frames : List ImageData) (width height : ℕ) :
    Option ImageData :=
  if frames.length = 0 then none
  else some
    { width := width, height := height,
      data := fun i =>
        if i < width * height * 4 then
          u8ClampStore
            (((frames.enum.map
                (fun e => (e.2.data i : ℚ) * (1 / (e.1 + 1 : ℚ)))).sum)
              / ((frames.enum.map (fun e => 1 / (e.1 + 1 : ℚ))).sum))
        else 0 }

/-- The 256-entry linearization lookup table of `accumulateAndToneMap`:
`linearLUT[i] = Math.pow(i / 255, 2.2)`. -/
noncomputable def linearLUT (v : ℕ) : ℝ :=
  ((v : ℝ) / 255) ^ (2.2 : ℝ)

/-- The per-channel body of the scalar HDR loops: accumulate the linearized
channel over the first `count` frames, average, Reinhard tone map
`c / (1 + c)` (the `"filmic"` branch is the same formula), clamp, gamma
encode `Math.pow(_, 1 / 2.2)`, and truncate to a byte via `(x * 255) | 0`. -/
noncomputable def toneMapChannel (frames : List ImageData) (count idx : ℕ) : ℕ :=
  let sum : ℝ := ((frames.take count).map (fun fr => linearLUT (fr.data idx))).sum
  let avg := sum / (count : ℝ)
  let toned := avg / (1 + avg)
  let encoded := (max 0 (min 1 toned)) ^ ((1 : ℝ) / 2.2)
  (⌊encoded * 255⌋).toNat

/-- `accumulateAndToneMap` (scalar HDR backend): every color channel goes
through `toneMapChannel`; the alpha byte of every pixel is written as 255.
`count` is `options?.maxFrames && options.maxFrames > 0 ?
Math.min(frames.length, options.maxFrames) : frames.length`, and
`if (!count) return frames[0]`. -/
noncomputable def accumulateAndToneMap (frames : List ImageData)
    (width height : ℕ) (maxFrames : Option ℕ) : Option ImageData :=
  let count : ℕ :=
    match maxFrames with
    | some m => if 0 < m then min frames.length m else frames.length
    | none => frames.length
  if count = 0 then frames.head?
  else some
    { width := width, height := height,
      data := fun o =>
        if o < width * height * 4 then
          if o % 4 = 3 then 255
          else toneMapChannel frames count (4 * (o / 4) + o % 4)
        else 0 }

/-! ### Capture orchestration — `captureMultiFrame` in `useAdvancedCapture.ts`

The WebGPU backend `webgpuAccumulateHDR` is an external effect (device
acquisition, compute passes, readback); its outcome enters the model as an
`Option ImageData` argument: `some toned` is a successful readback, `none` is
any thrown error (`catch { ... }`), in which case the scalar backend is run
on the buffered frame slice. -/

/-- `CameraMode` from `types/camera.ts`. -/
inductive CameraMode where
  | photo
  | night
  | longExposure
  deriving DecidableEq

/-- The fields of `CaptureSettings` that `captureMultiFrame` reads. -/
structure CaptureSettings where
  mode : CameraMode
  frameCount : ℕ
  enableHDR : Bool

/-- The provenance record `(blob as any).hdrMeta = { enabled, frameCount,
algorithm }` attached to the capture output. -/
structure HdrMeta where
  enabled : Bool
  frameCount : ℕ
  algorithm : String
  deriving DecidableEq

/-- `arr.slice(-n)` on a JavaScript array: the last `n` elements — except
that `-0 === 0`, so `n = 0` yields the whole array. -/
def jsSliceLast (l : List α) (n : ℕ) : List α :=
  if n = 0 then l else l.drop (l.length - n)

/-- The `hdrMeta.algorithm` string selected in the `toBlob` callback. -/
def hdrAlgorithm (hdrApplied : Bool) (mode : CameraMode) (usedFrameCount : ℕ) :
    String :=
  if hdrApplied then "webgpu-accumulate-tone-map-v1"
  else if mode = CameraMode.night ∧ 1 < usedFrameCount then "average-merge"
  else "single-frame"

/-- `captureMultiFrame`, reduced to the image/provenance computation (the
canvas, orientation pass and JPEG encoding cancel out of the claims): returns
the fused `ImageData` paired with the `hdrMeta` provenance, or `none` when
the pipeline produces no image. `video` is the live frame `drawImage`
rasterizes; `buffer` is `frameBufferRef.current`. -/
noncomputable def captureMultiFrame (settings : CaptureSettings)
    (buffer : List ImageData) (video : ImageData) (width height : ℕ)
    (webgpuResult : Option ImageData) : Option (ImageData × HdrMeta) :=
  if settings.mode = CameraMode.night then
    if buffer.length = 0 then
      some (video, ⟨false, 1, hdrAlgorithm false settings.mode 1⟩)
    else
      let framesToUse := min settings.frameCount buffer.length
      if settings.enableHDR then
        match webgpuResult with
        | some toned =>
          some (toned, ⟨true, framesToUse, hdrAlgorithm true settings.mode framesToUse⟩)
        | none =>
          (accumulateAndToneMap (jsSliceLast buffer framesToUse) width height
              (some framesToUse)).map
            (fun toned =>
              (toned, ⟨true, framesToUse, hdrAlgorithm true settings.mode framesToUse⟩))
      else
        (mergeFrames (jsSliceLast buffer framesToUse) width height).map
          (fun merged =>
            (merged, ⟨false, framesToUse, hdrAlgorithm false settings.mode framesToUse⟩))
  else
    some (video, ⟨false, 1, hdrAlgorithm false settings.mode 1⟩)

/-- A frame all of whose bytes (every channel of every pixel) hold `V`. -/
def constFrame (w h V : ℕ) : ImageData :=
  ⟨w, h, fun _ => V⟩

/-- The spec's per-channel accumulate+tonemap constant for an all-`V` input,
before integer conversion: `255 · ((V/255)^2.2 / (1 + (V/255)^2.2))^(1/2.2)`. -/
noncomputable def hdrToneConstant (V : ℕ) : ℝ :=
  255 * ((((V : ℝ) / 255) ^ (2.2 : ℝ)
    / (1 + ((V : ℝ) / 255) ^ (2.2 : ℝ))) ^ ((1 : ℝ) / 2.2))

/-! ### Orientation codec — `setJpegOrientation` in `utils/exif.ts`

Byte buffers are `List ℕ` of values `0..255`. JavaScript typed-array
semantics: an out-of-range read is `undefined`, which the source compares
with `===` (always false against a number) or feeds through `|`
(`ToInt32(undefined) = 0`); an out-of-range or negative-index write on a
`Uint8Array` is silently dropped. -/

/-- A byte read feeding `|`/arithmetic: `undefined` coerces to 0. -/
def jsByte (b : List ℕ) (i : ℕ) : ℕ :=
  (b[i]?).getD 0

/-- A byte read at a possibly negative (JavaScript) index, coerced to 0. -/
def readZ (b : List ℕ) (i : ℤ) : ℕ :=
  if 0 ≤ i then jsByte b i.toNat else 0

/-- `rd16` in `rewriteOrientation`: 16-bit read honoring endianness. -/
def rd16z (little : Bool) (b : List ℕ) (o : ℤ) : ℕ :=
  if little then readZ b o + readZ b (o + 1) * 256
  else readZ b o * 256 + readZ b (o + 1)

/-- `rd32` in `rewriteOrientation`: 32-bit read honoring endianness; the
JavaScript `|` chain produces a signed 32-bit integer. -/
def rd32z (little : Bool) (b : List ℕ) (o : ℤ) : ℤ :=
  let u : ℕ :=
    if little then
      readZ b o + readZ b (o + 1) * 256 + readZ b (o + 2) * 65536
        + readZ b (o + 3) * 16777216
    else
      readZ b o * 16777216 + readZ b (o + 1) * 65536 + readZ b (o + 2) * 256
        + readZ b (o + 3)
  if (u : ℤ) < 2 ^ 31 then (u : ℤ) else (u : ℤ) - 2 ^ 32

/-- A byte write at a possibly negative index: `Uint8Array` drops it when out
of range. (`List.set` is already a no-op past the end.) -/
def setZ (b : List ℕ) (i : ℤ) (v : ℕ) : List ℕ :=
  if 0 ≤ i then b.set i.toNat v else b

/-- `isExif(bytes, start)`: the six identifier bytes `"Exif\0\0"`; `===`
against an out-of-range read is false. -/
def isExif (b : List ℕ) (s : ℕ) : Prop :=
  b[s]? = some 0x45 ∧ b[s + 1]? = some 0x78 ∧ b[s + 2]? = some 0x69
    ∧ b[s + 3]? = some 0x66 ∧ b[s + 4]? = some 0x00 ∧ b[s + 5]? = some 0x00

instance (b : List ℕ) (s : ℕ) : Decidable (isExif b s) := by
  unfold isExif; infer_instance

/-- The byte stores of the orientation-tag branch in `rewriteOrientation`:
`wr16(entryPtr + 2, 3)` (type SHORT), then count = 1 and the inline value,
laid out for the detected endianness. -/
def writeOrientationEntry (b : List ℕ) (little : Bool) (e : ℤ) (value : ℕ) :
    List ℕ :=
  if little then
    let b := setZ b (e + 2) 3
    let b := setZ b (e + 3) 0
    let b := setZ b (e + 4) 1
    let b := setZ b (e + 5) 0
    let b := setZ b (e + 6) 0
    let b := setZ b (e + 7) 0
    let b := setZ b (e + 8) (value % 256)
    let b := setZ b (e + 9) (value / 256)
    let b := setZ b (e + 10) 0
    let b := setZ b (e + 11) 0
    b
  else
    let b := setZ b (e + 2) 0
    let b := setZ b (e + 3) 3
    let b := setZ b (e + 4) 0
    let b := setZ b (e + 5) 0
    let b := setZ b (e + 6) 0
    let b := setZ b (e + 7) 1
    let b := setZ b (e + 8) (value / 256)
    let b := setZ b (e + 9) (value % 256)
    let b := setZ b (e + 10) 0
    let b := setZ b (e + 11) 0
    b

/-- The `for (let i = 0; i < count; i++)` scan of IFD0 entries in
`rewriteOrientation`: find tag `0x0112`, rewrite it (returning the mutated
buffer), advance by 12, break once `entryPtr + 12` passes the segment end. -/
def scanOrientationEntries (b : List ℕ) (little : Bool) (value : ℕ) :
    ℤ → ℤ → ℕ → Option (List ℕ)
  | _, _, 0 => none
  | entryPtr, endPos, count + 1 =>
    if rd16z little b entryPtr = 0x0112 then
      some (writeOrientationEntry b little entryPtr value)
    else if endPos < entryPtr + 12 + 12 then none
    else scanOrientationEntries b little value (entryPtr + 12) endPos count

/-- `rewriteOrientation(bytes, exifDataStart, exifDataLength, value)`:
parse the TIFF header after `"Exif\0\0"`, locate IFD0, scan its entries for
the orientation tag and rewrite it in place. `some` is the source returning
`true` (with its mutations), `none` is `false`. -/
def rewriteOrientation (b : List ℕ) (exifDataStart exifDataLength value : ℕ) :
    Option (List ℕ) :=
  let tiffStart := exifDataStart + 6
  if b.length < tiffStart + 8 then none
  else
    let littleOpt : Option Bool :=
      if b[tiffStart]? = some 0x49 ∧ b[tiffStart + 1]? = some 0x49 then some true
      else if b[tiffStart]? = some 0x4d ∧ b[tiffStart + 1]? = some 0x4d then
        some false
      else none
    match littleOpt with
    | none => none
    | some little =>
      if rd16z little b (tiffStart + 2) ≠ 0x2a then none
      else
        let ifd0Offset := rd32z little b (tiffStart + 4)
        let ifd0 : ℤ := (tiffStart : ℤ) + ifd0Offset
        if ((exifDataStart : ℤ) + (exifDataLength : ℤ)) < ifd0 + 2 then none
        else
          scanOrientationEntries b little value (ifd0 + 2)
            ((exifDataStart : ℤ) + (exifDataLength : ℤ))
            (rd16z little b ifd0)

/-- The `while (offset + 4 < bytes.length)` marker walk of
`setJpegOrientation`, fuel-indexed (each iteration advances `offset` by at
least 4, so `bytes.length` iterations always suffice). Result: the (possibly
mutated) buffer and the `exifFound` flag. -/
def stampWalk (b : List ℕ) (value : ℕ) : ℕ → ℕ → List ℕ × Bool
  | _, 0 => (b, false)
  | offset, fuel + 1 =>
    if offset + 4 < b.length then
      if b[offset]? ≠ some 0xff then (b, false)
      else
        let marker := jsByte b (offset + 1)
        if marker = 0xda ∨ marker = 0xd9 then (b, false)
        else
          let size := jsByte b (offset + 2) * 256 + jsByte b (offset + 3)
          if size < 2 then (b, false)
          else if marker = 0xe1 ∧ isExif b (offset + 4) then
            match rewriteOrientation b (offset + 4) (size - 2) value with
            | some b' => (b', true)
            | none => stampWalk b value (offset + 2 + size) fuel
          else stampWalk b value (offset + 2 + size) fuel
    else (b, false)

/-- `buildMinimalExif(orientation)`: APP1 marker, size 0x0022, `"Exif\0\0"`,
little-endian TIFF header with IFD0 at offset 8, then the IFD bytes exactly
as the source writes them: entry count 1; tag `0x0112`; type 3; then the
bytes `01 00 v 00` at `ifd[6..9]` and zeros at `ifd[10..15]` (the source
comments call `ifd[8]` the value slot, but `ifd[8]` is byte 6 of the 12-byte
entry, i.e. the third byte of the 4-byte count field). -/
def buildMinimalExif (orientation : ℕ) : List ℕ :=
  [0xff, 0xe1, 0x00, 0x22]
    ++ [0x45, 0x78, 0x69, 0x66, 0x00, 0x00]
    ++ [0x49, 0x49, 0x2a, 0x00, 0x08, 0x00, 0x00, 0x00]
    ++ [0x01, 0x00,
        0x12, 0x01,
        0x03, 0x00,
        0x01, 0x00, orientation % 256, 0x00,
        0x00, 0x00, 0x00, 0x00,
        0x00, 0x00, 0x00, 0x00]

/-- JavaScript `%` on integers: remainder with the sign of the dividend. -/
def jsMod (a m : ℤ) : ℤ :=
  if 0 ≤ a then a % m else -((-a) % m)

/-- `map = { 0: 1, 90: 6, 180: 3, 270: 8 }` lookup; `none` is `undefined`
(falsy, like a 0 value would be). -/
def orientMap (n : ℤ) : Option ℕ :=
  if n = 0 then some 1
  else if n = 90 then some 6
  else if n = 180 then some 3
  else if n = 270 then some 8
  else none

/-- `setJpegOrientation(blob, deg)` at the byte level: non-JPEG MIME type or
unmapped degree or missing SOI prefix return the input unchanged; otherwise
walk the segments rewriting an existing EXIF orientation entry, and if none
was rewritten splice a minimal EXIF APP1 segment directly after the 2-byte
SOI marker. -/
def setJpegOrientation (blobType : String) (b : List ℕ) (deg : ℤ) : List ℕ :=
  if blobType ≠ "image/jpeg" then b
  else
    match orientMap (jsMod (deg + 360) 360) with
    | none => b
    | some value =>
      if b.length < 4 ∨ b[0]? ≠ some 0xff ∨ b[1]? ≠ some 0xd8 then b
      else
        match stampWalk b value 2 b.length with
        | (b', true) => b'
        | (_, false) => b.take 2 ++ buildMinimalExif value ++ b.drop 2

/-! ### Orientation re-parse and segment count (claim oracles)

The repository ships no EXIF reader, so the "re-parse" half of the round-trip
property is modelled from the spec. -/

/-- Modelled from the spec: scan IFD0 entries (12 bytes each: tag, type,
count, value-or-offset) for the orientation tag `0x0112` and read its inline
16-bit value, with the same entry-advance/bounds discipline as the segment
rewriter. -/
def scanOrientationRead (b : List ℕ) (little : Bool) :
    ℤ → ℤ → ℕ → Option ℕ
  | _, _, 0 => none
  | entryPtr, endPos, count + 1 =>
    if rd16z little b entryPtr = 0x0112 then
      some (rd16z little b (entryPtr + 8))
    else if endPos < entryPtr + 12 + 12 then none
    else scanOrientationRead b little (entryPtr + 12) endPos count

/-- Modelled from the spec: parse the embedded binary directory of an EXIF
APP1 payload — byte-order indicator, `0x002a` magic, 4-byte IFD0 offset —
and read the orientation entry's value. The repository has no such reader;
this follows §4.5 of the spec word for word. -/
def readOrientation (b : List ℕ) (exifDataStart exifDataLength : ℕ) :
    Option ℕ :=
  let tiffStart := exifDataStart + 6
  if b.length < tiffStart + 8 then none
  else
    let littleOpt : Option Bool :=
      if b[tiffStart]? = some 0x49 ∧ b[tiffStart + 1]? = some 0x49 then some true
      else if b[tiffStart]? = some 0x4d ∧ b[tiffStart + 1]? = some 0x4d then
        some false
      else none
    match littleOpt with
    | none => none
    | some little =>
      if rd16z little b (tiffStart + 2) ≠ 0x2a then none
      else
        let ifd0Offset := rd32z little b (tiffStart + 4)
        let ifd0 : ℤ := (tiffStart : ℤ) + ifd0Offset
        if ((exifDataStart : ℤ) + (exifDataLength : ℤ)) < ifd0 + 2 then none
        else
          scanOrientationRead b little (ifd0 + 2)
            ((exifDataStart : ℤ) + (exifDataLength : ℤ))
            (rd16z little b ifd0)

/-- Modelled from the spec: the marker walk of §4.5, returning the first
orientation value an EXIF APP1 segment yields. -/
def parseWalk (b : List ℕ) : ℕ → ℕ → Option ℕ
  | _, 0 => none
  | offset, fuel + 1 =>
    if offset + 4 < b.length then
      if b[offset]? ≠ some 0xff then none
      else
        let marker := jsByte b (offset + 1)
        if marker = 0xda ∨ marker = 0xd9 then none
        else
          let size := jsByte b (offset + 2) * 256 + jsByte b (offset + 3)
          if size < 2 then none
          else if marker = 0xe1 ∧ isExif b (offset + 4) then
            match readOrientation b (offset + 4) (size - 2) with
            | some w => some w
            | none => parseWalk b (offset + 2 + size) fuel
          else parseWalk b (offset + 2 + size) fuel
    else none

/-- Modelled from the spec: re-parse a stamped container for its EXIF
orientation code. -/
def getJpegOrientation (b : List ℕ) : Option ℕ :=
  if b.length < 4 ∨ b[0]? ≠ some 0xff ∨ b[1]? ≠ some 0xd8 then none
  else parseWalk b 2 b.length

/-- Modelled from the spec: count the EXIF APP1 segments encountered by the
§4.5 marker walk (for the "contains exactly one metadata segment" half of
the round-trip property). -/
def countExifWalk (b : List ℕ) : ℕ → ℕ → ℕ
  | _, 0 => 0
  | offset, fuel + 1 =>
    if offset + 4 < b.length then
      if b[offset]? ≠ some 0xff then 0
      else
        let marker := jsByte b (offset + 1)
        if marker = 0xda ∨ marker = 0xd9 then 0
        else
          let size := jsByte b (offset + 2) * 256 + jsByte b (offset + 3)
          if size < 2 then 0
          else
            (if marker = 0xe1 ∧ isExif b (offset + 4) then 1 else 0)
              + countExifWalk b (offset + 2 + size) fuel
    else 0

/-- Modelled from the spec: number of EXIF APP1 segments in a container. -/
def countExifSegments (b : List ℕ) : ℕ :=
  countExifWalk b 2 b.length

/-! ## Supporting lemmas -/

theorem pushFrame_length_le (buf : List α) (f : α)
    (h : buf.length ≤ 32) : (pushFrame buf f).length ≤ 32 := by
  simp only [pushFrame]
  split
  · simp only [List.length_tail, List.length_append, List.length_cons, List.length_nil]
    omega
  · next h32 =>
    simp only [List.length_append, List.length_cons, List.length_nil, not_lt] at h32 ⊢
    omega

theorem runFrameBuffer_length_le (fs : List α) :
    (runFrameBuffer fs).length ≤ 32 := by
  suffices h : ∀ (buf : List α), buf.length ≤ 32 → (fs.foldl pushFrame buf).length ≤ 32 by
    exact h [] (by simp)
  induction fs with
  | nil => intro buf h; simpa using h
  | cons f fs ih =>
    intro buf h
    exact ih (pushFrame buf f) (pushFrame_length_le buf f h)

theorem pushFrame_full (buf : List α) (f : α) (h : buf.length = 32) :
    pushFrame buf f = buf.tail ++ [f] := by
  unfold pushFrame
  have h32 : 32 < (buf ++ [f]).length := by simp [h]
  rw [if_pos h32]
  cases buf with
  | nil => simp at h
  | cons a l => simp

theorem longExposureLoop_length (sampler : ℕ → α) (n : ℕ) :
    (longExposureLoop sampler n).length = n := by
  induction n with
  | zero => rfl
  | succ n ih => simp [longExposureLoop, ih]

theorem cacheLookup_store_self (c : Cache) (k : String) (v : CachedCapabilities) :
    cacheLookup (cacheStore c k v) k = some v := by
  simp [cacheLookup, cacheStore, List.lookup]

theorem u8ClampStore_natCast (n : ℕ) (h : n ≤ 255) : u8ClampStore (n : ℚ) = n := by
  unfold u8ClampStore
  rcases Nat.eq_zero_or_pos n with h0 | h0
  · subst h0; norm_num
  · have hp : (0 : ℚ) < n := by exact_mod_cast h0
    rw [if_neg (not_le.mpr hp)]
    rcases eq_or_lt_of_le h with h255 | h255
    · subst h255; norm_num
    · have hlt : ¬ ((255 : ℚ) ≤ n) := by
        rw [not_le]; exact_mod_cast h255
      rw [if_neg hlt]
      have hfl : ⌊(n : ℚ)⌋ = n := Int.floor_natCast n
      simp [hfl]

theorem accumulateAndToneMap_isSome (frames : List ImageData) (w h : ℕ)
    (mf : Option ℕ) (hne : frames ≠ []) :
    (accumulateAndToneMap frames w h mf).isSome := by
  cases frames with
  | nil => exact absurd rfl hne
  | cons f fs =>
    cases mf with
    | none =>
      simp only [accumulateAndToneMap]
      split <;> simp
    | some m =>
      simp only [accumulateAndToneMap]
      by_cases hm : 0 < m
      · simp only [if_pos hm]
        split <;> simp
      · simp only [if_neg hm]
        split <;> simp

theorem jsSliceLast_ne_nil (l : List α) (n : ℕ) (hl : l ≠ []) :
    jsSliceLast l n ≠ [] := by
  unfold jsSliceLast
  split
  · exact hl
  · next hn =>
    have hlen : 0 < l.length := List.length_pos.mpr hl
    intro hcon
    have := congrArg List.length hcon
    simp only [List.length_drop, List.length_nil] at this
    omega

theorem jsSliceLast_of_length_le (l : List α) (n : ℕ) (h1 : 1 ≤ n)
    (h2 : l.length ≤ n) : jsSliceLast l n = l := by
  unfold jsSliceLast
  rw [if_neg (by omega)]
  have : l.length - n = 0 := by omega
  rw [this, List.drop_zero]

theorem linearLUT_nonneg (V : ℕ) : 0 ≤ linearLUT V :=
  Real.rpow_nonneg (by positivity) _

theorem reinhard_nonneg {a : ℝ} (ha : 0 ≤ a) : 0 ≤ a / (1 + a) :=
  div_nonneg ha (by linarith)

theorem reinhard_le_one {a : ℝ} (ha : 0 ≤ a) : a / (1 + a) ≤ 1 := by
  rw [div_le_one (by linarith)]
  linarith

theorem reinhard_mono {a b : ℝ} (ha : 0 ≤ a) (hab : a ≤ b) :
    a / (1 + a) ≤ b / (1 + b) := by
  have h1 : (0 : ℝ) < 1 + a := by linarith
  have h2 : (0 : ℝ) < 1 + b := by linarith
  rw [div_le_div_iff h1 h2]
  nlinarith

theorem pow5_of_rpow_inv (t : ℝ) (ht : 0 ≤ t) :
    (t ^ ((1 : ℝ) / 2.2)) ^ (11 : ℕ) = t ^ (5 : ℕ) := by
  rw [← Real.rpow_natCast (t ^ ((1 : ℝ) / 2.2)) 11, ← Real.rpow_mul ht,
    ← Real.rpow_natCast t 5]
  norm_num

theorem floorMulRpow (t : ℝ) (ht0 : 0 ≤ t) (m : ℕ)
    (hlow : ((m : ℝ) / 255) ^ (11 : ℕ) ≤ t ^ (5 : ℕ))
    (hhigh : t ^ (5 : ℕ) < (((m : ℝ) + 1) / 255) ^ (11 : ℕ)) :
    ⌊t ^ ((1 : ℝ) / 2.2) * 255⌋ = (m : ℤ) := by
  have hs0 : 0 ≤ t ^ ((1 : ℝ) / 2.2) := Real.rpow_nonneg ht0 _
  have hseq : (t ^ ((1 : ℝ) / 2.2)) ^ (11 : ℕ) = t ^ (5 : ℕ) :=
    pow5_of_rpow_inv t ht0
  have h1 : (m : ℝ) / 255 ≤ t ^ ((1 : ℝ) / 2.2) :=
    le_of_pow_le_pow_left (by norm_num : (11 : ℕ) ≠ 0) hs0
      (by rw [hseq]; exact hlow)
  have h2 : t ^ ((1 : ℝ) / 2.2) < ((m : ℝ) + 1) / 255 :=
    lt_of_pow_lt_pow_left 11 (by positivity) (by rw [hseq]; exact hhigh)
  have h1' : (m : ℝ) ≤ t ^ ((1 : ℝ) / 2.2) * 255 := by
    rw [← div_le_iff (by norm_num : (0:ℝ) < 255)]
    exact h1
  have h2' : t ^ ((1 : ℝ) / 2.2) * 255 < (m : ℝ) + 1 := by
    rw [← lt_div_iff (by norm_num : (0:ℝ) < 255)]
    exact h2
  rw [Int.floor_eq_iff]
  constructor
  · push_cast
    exact h1'
  · push_cast
    exact h2'

theorem lut128_lower : (439 / 2000 : ℝ) ≤ linearLUT 128 := by
  have hx0 : (0 : ℝ) ≤ 128 / 255 := by norm_num
  have hy5 : (linearLUT 128) ^ (5 : ℕ) = ((128 : ℝ) / 255) ^ (11 : ℕ) := by
    unfold linearLUT
    rw [show ((128 : ℕ) : ℝ) / 255 = 128 / 255 by norm_num,
      ← Real.rpow_natCast (((128 : ℝ) / 255) ^ (2.2 : ℝ)) 5, ← Real.rpow_mul hx0,
      ← Real.rpow_natCast ((128 : ℝ) / 255) 11]
    norm_num
  apply le_of_pow_le_pow_left (by norm_num : (5 : ℕ) ≠ 0) (linearLUT_nonneg 128)
  rw [hy5]
  norm_num

theorem lut128_upper : linearLUT 128 ≤ 4391 / 20000 := by
  have hx0 : (0 : ℝ) ≤ 128 / 255 := by norm_num
  have hy5 : (linearLUT 128) ^ (5 : ℕ) = ((128 : ℝ) / 255) ^ (11 : ℕ) := by
    unfold linearLUT
    rw [show ((128 : ℕ) : ℝ) / 255 = 128 / 255 by norm_num,
      ← Real.rpow_natCast (((128 : ℝ) / 255) ^ (2.2 : ℝ)) 5, ← Real.rpow_mul hx0,
      ← Real.rpow_natCast ((128 : ℝ) / 255) 11]
    norm_num
  apply le_of_pow_le_pow_left (by norm_num : (5 : ℕ) ≠ 0)
    (by norm_num : (0 : ℝ) ≤ 4391 / 20000)
  rw [hy5]
  norm_num

theorem toned128_lower :
    (439 / 2439 : ℝ) ≤ linearLUT 128 / (1 + linearLUT 128) := by
  have h := reinhard_mono (by norm_num : (0:ℝ) ≤ 439 / 2000) lut128_lower
  calc (439 / 2439 : ℝ) = (439 / 2000) / (1 + 439 / 2000) := by norm_num
    _ ≤ _ := h

theorem toned128_upper :
    linearLUT 128 / (1 + linearLUT 128) ≤ 4391 / 24391 := by
  have h := reinhard_mono (linearLUT_nonneg 128) lut128_upper
  calc linearLUT 128 / (1 + linearLUT 128) ≤ (4391 / 20000) / (1 + 4391 / 20000) := h
    _ = 4391 / 24391 := by norm_num

theorem toned128_pow5_lower :
    ((116 : ℝ) / 255) ^ (11 : ℕ)
      ≤ (linearLUT 128 / (1 + linearLUT 128)) ^ (5 : ℕ) := by
  calc ((116 : ℝ) / 255) ^ (11 : ℕ) ≤ ((439 : ℝ) / 2439) ^ (5 : ℕ) := by norm_num
    _ ≤ _ := pow_le_pow_left (by norm_num) toned128_lower 5

theorem toned128_pow5_half :
    ((233 : ℝ) / 510) ^ (11 : ℕ)
      ≤ (linearLUT 128 / (1 + linearLUT 128)) ^ (5 : ℕ) := by
  calc ((233 : ℝ) / 510) ^ (11 : ℕ) ≤ ((439 : ℝ) / 2439) ^ (5 : ℕ) := by norm_num
    _ ≤ _ := pow_le_pow_left (by norm_num) toned128_lower 5

theorem toned128_pow5_upper :
    (linearLUT 128 / (1 + linearLUT 128)) ^ (5 : ℕ)
      < ((117 : ℝ) / 255) ^ (11 : ℕ) := by
  calc (linearLUT 128 / (1 + linearLUT 128)) ^ (5 : ℕ)
      ≤ ((4391 : ℝ) / 24391) ^ (5 : ℕ) :=
        pow_le_pow_left (reinhard_nonneg (linearLUT_nonneg 128)) toned128_upper 5
    _ < ((117 : ℝ) / 255) ^ (11 : ℕ) := by norm_num

theorem hdrToneConstant_eq (V : ℕ) :
    hdrToneConstant V
      = (linearLUT V / (1 + linearLUT V)) ^ ((1 : ℝ) / 2.2) * 255 := by
  unfold hdrToneConstant linearLUT
  ring

theorem toneMapChannel_const (fs : List ImageData) (V idx : ℕ) (hlen : fs.length ≠ 0)
    (hconst : ∀ fr ∈ fs, ∀ i, fr.data i = V) :
    toneMapChannel fs fs.length idx
      = (⌊(linearLUT V / (1 + linearLUT V)) ^ ((1 : ℝ) / 2.2) * 255⌋).toNat := by
  unfold toneMapChannel
  have hmap : fs.map (fun fr => linearLUT (fr.data idx))
      = List.replicate fs.length (linearLUT V) := by
    rw [List.eq_replicate_iff]
    refine ⟨by simp, ?_⟩
    intro x hx
    rcases List.mem_map.mp hx with ⟨fr, hfr, hx'⟩
    rw [← hx', hconst fr hfr idx]
  rw [List.take_length, hmap]
  have hsum : (List.replicate fs.length (linearLUT V)).sum
      = (fs.length : ℝ) * linearLUT V := by
    rw [List.sum_replicate, nsmul_eq_mul]
  rw [hsum]
  have hdiv : (fs.length : ℝ) * linearLUT V / (fs.length : ℝ) = linearLUT V :=
    mul_div_cancel_left₀ _ (by exact_mod_cast hlen)
  have hclamp : max 0 (min 1 (linearLUT V / (1 + linearLUT V)))
      = linearLUT V / (1 + linearLUT V) := by
    rw [min_eq_right (reinhard_le_one (linearLUT_nonneg V)),
      max_eq_right (reinhard_nonneg (linearLUT_nonneg V))]
  show (⌊(max 0 (min 1 ((fs.length : ℝ) * linearLUT V / (fs.length : ℝ)
      / (1 + (fs.length : ℝ) * linearLUT V / (fs.length : ℝ)))))
      ^ ((1 : ℝ) / 2.2) * 255⌋).toNat
    = (⌊(linearLUT V / (1 + linearLUT V)) ^ ((1 : ℝ) / 2.2) * 255⌋).toNat
  rw [hdiv, hclamp]

theorem accumulateAndToneMap_apply (frames : List ImageData) (w h o : ℕ)
    (hlen : ¬ frames.length = 0) :
    (accumulateAndToneMap frames w h none).map (fun out => out.data o)
      = some (if o < w * h * 4 then
          if o % 4 = 3 then 255
          else toneMapChannel frames frames.length (4 * (o / 4) + o % 4)
        else 0) := by
  simp only [accumulateAndToneMap]
  rw [if_neg hlen]
  rfl

theorem accumulateAndToneMap_constant (N w h V o : ℕ) (hN : N ≠ 0)
    (ho : o < w * h * 4) (hch : o % 4 ≠ 3) :
    (accumulateAndToneMap (List.replicate N (constFrame w h V)) w h none).map
        (fun out => out.data o)
      = some ((⌊(linearLUT V / (1 + linearLUT V)) ^ ((1 : ℝ) / 2.2) * 255⌋).toNat) := by
  have hlen : ¬ (List.replicate N (constFrame w h V)).length = 0 := by
    simp [hN]
  rw [accumulateAndToneMap_apply _ w h o hlen]
  rw [if_pos ho, if_neg hch]
  rw [toneMapChannel_const _ V _ hlen]
  intro fr hfr i
  rw [List.eq_of_mem_replicate hfr]
  rfl

theorem hdrToneConstant_floor_0 : ⌊hdrToneConstant 0⌋ = 0 := by
  unfold hdrToneConstant
  rw [show ((0 : ℕ) : ℝ) / 255 = 0 by norm_num]
  rw [Real.zero_rpow (by norm_num : (2.2 : ℝ) ≠ 0)]
  rw [show (0 : ℝ) / (1 + 0) = 0 by norm_num]
  rw [Real.zero_rpow (by norm_num : (1 : ℝ) / 2.2 ≠ 0)]
  norm_num

theorem hdrToneConstant_floor_128 : ⌊hdrToneConstant 128⌋ = 116 := by
  rw [hdrToneConstant_eq]
  have h := floorMulRpow (linearLUT 128 / (1 + linearLUT 128))
    (reinhard_nonneg (linearLUT_nonneg 128)) 116
    (by exact_mod_cast toned128_pow5_lower)
    (by
      push_cast
      have h117 : ((116 : ℝ) + 1) / 255 = 117 / 255 := by norm_num
      rw [h117]
      exact toned128_pow5_upper)
  exact_mod_cast h

theorem hdrToneConstant_floor_255 : ⌊hdrToneConstant 255⌋ = 186 := by
  rw [hdrToneConstant_eq]
  have hlin : linearLUT 255 = 1 := by
    unfold linearLUT
    rw [show ((255 : ℕ) : ℝ) / 255 = 1 by norm_num, Real.one_rpow]
  rw [hlin]
  have h := floorMulRpow ((1 : ℝ) / (1 + 1)) (by norm_num) 186
    (by norm_num) (by norm_num)
  exact_mod_cast h

theorem hdrToneConstant_128_ge_half : (233 / 2 : ℝ) ≤ hdrToneConstant 128 := by
  rw [hdrToneConstant_eq]
  have ht0 : 0 ≤ linearLUT 128 / (1 + linearLUT 128) :=
    reinhard_nonneg (linearLUT_nonneg 128)
  have hs0 : 0 ≤ (linearLUT 128 / (1 + linearLUT 128)) ^ ((1 : ℝ) / 2.2) :=
    Real.rpow_nonneg ht0 _
  have hseq := pow5_of_rpow_inv (linearLUT 128 / (1 + linearLUT 128)) ht0
  have h1 : (233 : ℝ) / 510
      ≤ (linearLUT 128 / (1 + linearLUT 128)) ^ ((1 : ℝ) / 2.2) :=
    le_of_pow_le_pow_left (by norm_num : (11 : ℕ) ≠ 0) hs0
      (by rw [hseq]; exact toned128_pow5_half)
  nlinarith [h1]

theorem hdrToneConstant_128_round : round (hdrToneConstant 128) = 117 := by
  have hfl := hdrToneConstant_floor_128
  have hlt : hdrToneConstant 128 < 117 := by
    have := Int.lt_floor_add_one (hdrToneConstant 128)
    rw [hfl] at this
    exact_mod_cast this
  have hge := hdrToneConstant_128_ge_half
  rw [round_eq, Int.floor_eq_iff]
  constructor
  · push_cast
    linarith
  · push_cast
    linarith

theorem captureMultiFrame_night_noHDR (settings : CaptureSettings)
    (buffer : List ImageData) (video : ImageData) (w h : ℕ)
    (wg : Option ImageData) (hm : settings.mode = CameraMode.night)
    (hb : ¬ buffer.length = 0) (hh : settings.enableHDR = false) :
    captureMultiFrame settings buffer video w h wg
      = (mergeFrames (jsSliceLast buffer (min settings.frameCount buffer.length))
          w h).map
        (fun m => (m, ⟨false, min settings.frameCount buffer.length,
          hdrAlgorithm false settings.mode
            (min settings.frameCount buffer.length)⟩)) := by
  unfold captureMultiFrame
  rw [if_pos hm, if_neg hb, hh]
  simp

/-! ## Claim theorems -/

/-- C3, counterexample: one frame of constant value 128 through the scalar
accumulate+tonemap yields channel value 116, while the claim's rounding
formula `round(255·((128/255)^2.2/(1+(128/255)^2.2))^(1/2.2))` gives 117:
the gamma-encode step truncates via `(r * 255) | 0`, it does not round. -/
theorem claim_C3_counterexample :
    (accumulateAndToneMap (List.replicate 1 (constFrame 1 1 128)) 1 1 none).map
        (fun out => out.data 0) = some 116
      ∧ round (hdrToneConstant 128) = 117
      ∧ (116 : ℕ) ≠ 117 := by
  refine ⟨?_, hdrToneConstant_128_round, by norm_num⟩
  rw [accumulateAndToneMap_constant 1 1 1 128 0 (by norm_num) (by norm_num)
    (by norm_num)]
  rw [← hdrToneConstant_eq, hdrToneConstant_floor_128]
  rfl

/-- C3, amended: for every N ≥ 1 and V ∈ {0, 128, 255}, the scalar
accumulate+tonemap of N identical all-`V` frames yields a constant output
whose every color channel equals the TRUNCATED constant
`floor(255·((V/255)^2.2/(1+(V/255)^2.2))^(1/2.2))` — the gamma-encode step
truncates via `(r * 255) | 0` rather than rounding — whose values at
V = 0, 128, 255 are 0, 116 and 186. -/
theorem claim_C3_truncated_constants (N w h V o : ℕ) (hN : 1 ≤ N)
    (hV : V = 0 ∨ V = 128 ∨ V = 255) (ho : o < w * h * 4) (hch : o % 4 ≠ 3) :
    (accumulateAndToneMap (List.replicate N (constFrame w h V)) w h none).map
        (fun out => out.data o)
      = some ((⌊hdrToneConstant V⌋).toNat)
      ∧ ⌊hdrToneConstant 0⌋ = 0
      ∧ ⌊hdrToneConstant 128⌋ = 116
      ∧ ⌊hdrToneConstant 255⌋ = 186 := by
  refine ⟨?_, hdrToneConstant_floor_0, hdrToneConstant_floor_128,
    hdrToneConstant_floor_255⟩
  rw [accumulateAndToneMap_constant N w h V o (by omega) ho hch,
    ← hdrToneConstant_eq]

theorem claim_C3_witness :
    (accumulateAndToneMap (List.replicate 2 (constFrame 1 1 255)) 1 1 none).map
        (fun out => out.data 0)
      = some ((⌊hdrToneConstant 255⌋).toNat)
      ∧ ⌊hdrToneConstant 0⌋ = 0
      ∧ ⌊hdrToneConstant 128⌋ = 116
      ∧ ⌊hdrToneConstant 255⌋ = 186 :=
  claim_C3_truncated_constants 2 1 1 255 0 (by norm_num)
    (Or.inr (Or.inr rfl)) (by norm_num) (by norm_num)

/-- C4: after every append the frame ring buffer holds at most 32 frames, for
every sequence of appends from session start; an append to a full buffer
drops the oldest (head) frame and retains the newly appended frame at the
newest end. -/
theorem claim_C4_ring_capacity (fs buf : List α) (f : α) :
    (runFrameBuffer fs).length ≤ 32
      ∧ (buf.length = 32 → pushFrame buf f = buf.tail ++ [f]) :=
  ⟨runFrameBuffer_length_le fs, fun h => pushFrame_full buf f h⟩

theorem claim_C4_witness :
    (runFrameBuffer (List.replicate 40 0)).length ≤ 32
      ∧ pushFrame (List.replicate 32 0) 1 = (List.replicate 32 0).tail ++ [1] := by
  have h := claim_C4_ring_capacity (List.replicate 40 (0 : ℕ))
    (List.replicate 32 (0 : ℕ)) 1
  exact ⟨h.1, h.2 (by simp)⟩

/-- C2, counterexample: for exposure time 1/4 s the long-exposure loop
collects `max(1, floor(2.5)) = 2` samples, not `ceil(2.5) = 3` as the claim
computes. -/
theorem claim_C2_counterexample :
    (captureLongExposureFrames (fun _ => (0 : ℕ)) (1/4)).length = 2
      ∧ ⌈(1/4 : ℚ) * 1000 / 100⌉ = 3 := by
  have hq : (1/4 : ℚ) * 1000 / 100 = 5/2 := by norm_num
  have hfl : ⌊(5/2 : ℚ)⌋ = 2 := by
    rw [Int.floor_eq_iff]
    norm_num
  have hcl : ⌈(5/2 : ℚ)⌉ = 3 := by
    rw [Int.ceil_eq_iff]
    norm_num

  constructor
  · rw [captureLongExposureFrames, longExposureLoop_length]
    unfold longExposureFrameCount frameInterval
    rw [hq, hfl]
    rfl
  · rw [hq, hcl]

/-- C2, amended: for every exposure time `t` (seconds) the long-exposure
capture collects exactly `max(1, floor(t·1000/100))` samples (the sample
count is `Math.floor`, not `ceil`, of the 100 ms cadence count, with a
minimum of 1) before the weighted merge. -/
theorem claim_C2_sample_count (sampler : ℕ → α) (t : ℚ) :
    (captureLongExposureFrames sampler t).length = (max 1 ⌊t * 1000 / 100⌋).toNat
      ∧ 1 ≤ (captureLongExposureFrames sampler t).length := by
  rw [captureLongExposureFrames, longExposureLoop_length]
  constructor
  · rfl
  · have h1 : (1 : ℤ) ≤ longExposureFrameCount t := by
      unfold longExposureFrameCount
      exact le_max_left _ _
    omega

/-- C6, counterexample: degree 450 is not in {0, 90, 180, 270}, yet
`setJpegOrientation` normalizes it to 90 and modifies the container. -/
theorem claim_C6_counterexample :
    setJpegOrientation "image/jpeg" [0xff, 0xd8, 0xff, 0xd9] 450
        ≠ [0xff, 0xd8, 0xff, 0xd9]
      ∧ ¬ ((450 : ℤ) = 0 ∨ (450 : ℤ) = 90 ∨ (450 : ℤ) = 180 ∨ (450 : ℤ) = 270) := by
  constructor
  · decide
  · decide

/-- C6, amended: if the byte sequence does not begin with the 2-byte
start-of-image marker 0xFFD8 (or is shorter than 4 bytes), or the degree
value normalized by JavaScript `(deg + 360) % 360` is not one of
{0, 90, 180, 270}, then `setJpegOrientation` returns the input bytes
unmodified. -/
theorem claim_C6_invalid_inputs (blobType : String) (b : List ℕ) (deg : ℤ)
    (h : b.length < 4 ∨ b[0]? ≠ some 0xff ∨ b[1]? ≠ some 0xd8
        ∨ orientMap (jsMod (deg + 360) 360) = none) :
    setJpegOrientation blobType b deg = b := by
  unfold setJpegOrientation
  split
  · rfl
  · cases hmap : orientMap (jsMod (deg + 360) 360) with
    | none => rfl
    | some v =>
      have hb : b.length < 4 ∨ b[0]? ≠ some 0xff ∨ b[1]? ≠ some 0xd8 := by
        rcases h with h | h | h | h
        · exact Or.inl h
        · exact Or.inr (Or.inl h)
        · exact Or.inr (Or.inr h)
        · rw [hmap] at h; exact absurd h (by simp)
      show (if b.length < 4 ∨ b[0]? ≠ some 0xff ∨ b[1]? ≠ some 0xd8 then b
        else match stampWalk b v 2 b.length with
          | (b', true) => b'
          | (_, false) => b.take 2 ++ buildMinimalExif v ++ b.drop 2) = b
      rw [if_pos hb]

theorem claim_C6_witness :
    setJpegOrientation "image/jpeg" [1, 2, 3, 4] 0 = [1, 2, 3, 4] :=
  claim_C6_invalid_inputs "image/jpeg" [1, 2, 3, 4] 0
    (Or.inr (Or.inl (by decide)))

/-- C5: evaluation at the failing input. Stamping rotation 90 onto a JPEG
lacking an EXIF segment splices exactly one EXIF APP1 segment directly after
the SOI marker (that half of the claim holds), but re-parsing the
orientation directory entry yields 0, not the mapped code 6:
`buildMinimalExif` writes the orientation byte at `ifd[8]`, which is byte 6
of the 12-byte directory entry — the third byte of the 4-byte count field —
leaving the actual value field (entry bytes 8..11, `ifd[10..13]`) zero. -/
theorem claim_C5_inject_failure :
    setJpegOrientation "image/jpeg" [0xff, 0xd8, 0xff, 0xd9] 90
        = [0xff, 0xd8] ++ buildMinimalExif 6 ++ [0xff, 0xd9]
      ∧ countExifSegments
          (setJpegOrientation "image/jpeg" [0xff, 0xd8, 0xff, 0xd9] 90) = 1
      ∧ getJpegOrientation
          (setJpegOrientation "image/jpeg" [0xff, 0xd8, 0xff, 0xd9] 90) = some 0
      ∧ orientMap 90 = some 6
      ∧ (0 : ℕ) ≠ 6 := by
  refine ⟨by decide, by decide, by decide, by decide, by decide⟩

/-- C7: an entry set at time `T` is stored as the merge of the partial data
with any existing entry, with timestamp defaulting to the set time; a get at
`now` with `maxAge ≥ now − T` returns it, and a get with `now − T > maxAge`
returns nothing and evicts the entry. -/
theorem claim_C7_cache_ttl (c : Cache) (T now maxAge : ℤ) (k : String)
    (data : CacheSetData) (hts : data.timestamp = none) :
    cacheLookup (setCachedProfile c T k data) k
        = some (mergeProfile (cacheLookup c k) data T)
      ∧ (mergeProfile (cacheLookup c k) data T).timestamp = T
      ∧ (now - T ≤ maxAge →
          getCachedProfile (setCachedProfile c T k data) now k maxAge
            = (some (mergeProfile (cacheLookup c k) data T),
               setCachedProfile c T k data))
      ∧ (maxAge < now - T →
          getCachedProfile (setCachedProfile c T k data) now k maxAge
            = (none, cacheErase (setCachedProfile c T k data) k)) := by
  have hl : cacheLookup (setCachedProfile c T k data) k
      = some (mergeProfile (cacheLookup c k) data T) :=
    cacheLookup_store_self c k _
  have hT : (mergeProfile (cacheLookup c k) data T).timestamp = T := by
    simp [mergeProfile, hts]
  refine ⟨hl, hT, ?_, ?_⟩
  · intro hfresh
    unfold getCachedProfile
    rw [hl]
    simp only []
    rw [if_neg]
    simp only [isStale, hT, not_lt]
    omega
  · intro hstale
    unfold getCachedProfile
    rw [hl]
    simp only []
    rw [if_pos]
    simp only [isStale, hT]
    omega

theorem claim_C7_witness :
    cacheLookup (setCachedProfile [] 0 "cam" ⟨none, none, none⟩) "cam"
        = some (mergeProfile (cacheLookup [] "cam") ⟨none, none, none⟩ 0)
      ∧ getCachedProfile (setCachedProfile [] 0 "cam" ⟨none, none, none⟩) 5 "cam" 10
          = (some (mergeProfile (cacheLookup [] "cam") ⟨none, none, none⟩ 0),
             setCachedProfile [] 0 "cam" ⟨none, none, none⟩)
      ∧ getCachedProfile (setCachedProfile [] 0 "cam" ⟨none, none, none⟩) 5 "cam" 3
          = (none, cacheErase (setCachedProfile [] 0 "cam" ⟨none, none, none⟩) "cam") := by
  have h1 := claim_C7_cache_ttl [] 0 5 10 "cam" ⟨none, none, none⟩ rfl
  have h2 := claim_C7_cache_ttl [] 0 5 3 "cam" ⟨none, none, none⟩ rfl
  exact ⟨h1.1, h1.2.2.1 (by norm_num), h2.2.2.2 (by norm_num)⟩

/-- C8: a night-mode capture with `frameCount = 8`, `enableHDR = false` and a
ring buffer holding exactly 3 frames selects all 3 buffered frames (the 3
most recent), routes them to the average merge, and tags the provenance with
`frameCount = 3` and `algorithm = "average-merge"`. -/
theorem claim_C8_night_scenario (buffer : List ImageData) (video : ImageData)
    (w h : ℕ) (wg : Option ImageData) (hb : buffer.length = 3) :
    jsSliceLast buffer (min 8 buffer.length) = buffer
      ∧ captureMultiFrame ⟨CameraMode.night, 8, false⟩ buffer video w h wg
          = (mergeFrames buffer w h).map
              (fun m => (m, ⟨false, 3, "average-merge"⟩))
      ∧ (captureMultiFrame ⟨CameraMode.night, 8, false⟩ buffer video w h wg).isSome := by
  have hmin : min (8 : ℕ) buffer.length = 3 := by omega
  have hslice : jsSliceLast buffer (min 8 buffer.length) = buffer := by
    rw [hmin]
    exact jsSliceLast_of_length_le buffer 3 (by norm_num) (by omega)
  have halg : hdrAlgorithm false CameraMode.night 3 = "average-merge" := by
    simp [hdrAlgorithm]
  have hcap : captureMultiFrame ⟨CameraMode.night, 8, false⟩ buffer video w h wg
      = (mergeFrames buffer w h).map
          (fun m => (m, ⟨false, 3, "average-merge"⟩)) := by
    rw [captureMultiFrame_night_noHDR ⟨CameraMode.night, 8, false⟩ buffer video
      w h wg rfl (by omega) rfl]
    rw [show (⟨CameraMode.night, 8, false⟩ : CaptureSettings).frameCount = 8 from rfl]
    rw [show (⟨CameraMode.night, 8, false⟩ : CaptureSettings).mode
        = CameraMode.night from rfl]
    rw [hmin, halg]
    have hs3 : jsSliceLast buffer 3 = buffer :=
      jsSliceLast_of_length_le buffer 3 (by norm_num) (by omega)
    rw [hs3]
  have hsome : (mergeFrames buffer w h).isSome := by
    unfold mergeFrames
    rw [if_neg (by omega)]
    simp
  refine ⟨hslice, hcap, ?_⟩
  rw [hcap]
  simpa using hsome

theorem claim_C8_witness :
    jsSliceLast [(⟨1, 1, fun _ => 0⟩ : ImageData), ⟨1, 1, fun _ => 0⟩,
        ⟨1, 1, fun _ => 0⟩] (min 8 3) = [⟨1, 1, fun _ => 0⟩, ⟨1, 1, fun _ => 0⟩,
        ⟨1, 1, fun _ => 0⟩]
      ∧ captureMultiFrame ⟨CameraMode.night, 8, false⟩
          [⟨1, 1, fun _ => 0⟩, ⟨1, 1, fun _ => 0⟩, ⟨1, 1, fun _ => 0⟩]
          ⟨1, 1, fun _ => 0⟩ 1 1 none
          = (mergeFrames [⟨1, 1, fun _ => 0⟩, ⟨1, 1, fun _ => 0⟩,
              ⟨1, 1, fun _ => 0⟩] 1 1).map
              (fun m => (m, ⟨false, 3, "average-merge"⟩)) := by
  have h := claim_C8_night_scenario
    [(⟨1, 1, fun _ => 0⟩ : ImageData), ⟨1, 1, fun _ => 0⟩, ⟨1, 1, fun _ => 0⟩]
    ⟨1, 1, fun _ => 0⟩ 1 1 none rfl
  exact ⟨h.1, h.2.1⟩

/-- C9: the weighted long-exposure merge of a single-frame slice returns that
frame unchanged — every channel of every pixel in the output array equals the
input byte (the weight ratio degenerates to 1:1). -/
theorem claim_C9_single_frame (f : ImageData) (w h i : ℕ)
    (hbyte : f.data i ≤ 255) (hi : i < w * h * 4) :
    (mergeFramesWithMotionBlur [f] w h).map (fun o => o.data i)
        = some (f.data i) := by
  unfold mergeFramesWithMotionBlur
  rw [if_neg (by simp)]
  simp only [Option.map_some']
  congr 1
  rw [if_pos hi]
  have henum : ([f] : List ImageData).enum = [(0, f)] := rfl
  rw [henum]
  simp only [List.map_cons, List.map_nil, List.sum_cons, List.sum_nil]
  norm_num
  exact u8ClampStore_natCast (f.data i) hbyte

theorem claim_C9_witness :
    (mergeFramesWithMotionBlur [(⟨1, 1, fun _ => 9⟩ : ImageData)] 1 1).map
        (fun o => o.data 0) = some 9 := by
  have h := claim_C9_single_frame (⟨1, 1, fun _ => 9⟩ : ImageData) 1 1 0
    (by norm_num) (by norm_num)
  exact h

/-- C10: every pixel of the `ImageData` produced by the scalar
accumulate+tonemap backend has alpha exactly 255, for every non-empty frame
slice and every `maxFrames` option — input alpha never enters the
accumulation. -/
theorem claim_C10_alpha_opaque (frames : List ImageData) (w h : ℕ)
    (mf : Option ℕ) (p : ℕ) (hne : frames ≠ []) (hp : p < w * h) :
    (accumulateAndToneMap frames w h mf).map (fun o => o.data (4 * p + 3))
        = some 255 := by
  have hcount : (match mf with
      | some m => if 0 < m then min frames.length m else frames.length
      | none => frames.length) ≠ 0 := by
    have hl : 0 < frames.length := List.length_pos.mpr hne
    cases mf with
    | none =>
      show frames.length ≠ 0
      omega
    | some m =>
      show (if 0 < m then min frames.length m else frames.length) ≠ 0
      by_cases hm : 0 < m
      · rw [if_pos hm]
        have h0 : 0 < min frames.length m := lt_min hl hm
        omega
      · rw [if_neg hm]; omega
  unfold accumulateAndToneMap
  rw [if_neg hcount]
  have hidx : 4 * p + 3 < w * h * 4 := by omega
  have hmod : (4 * p + 3) % 4 = 3 := by omega
  simp only [Option.map_some']
  rw [if_pos hidx, if_pos hmod]

theorem claim_C10_witness :
    (accumulateAndToneMap [(⟨1, 1, fun _ => 7⟩ : ImageData)] 1 1 none).map
        (fun o => o.data 3) = some 255 := by
  have h := claim_C10_alpha_opaque [(⟨1, 1, fun _ => 7⟩ : ImageData)] 1 1 none 0
    (by simp) (by norm_num)
  simpa using h

/-- C1: in a night-mode HDR capture, when the WebGPU backend is unavailable
or throws (`webgpuResult = none`), `captureMultiFrame` retries the fusion
with the scalar accumulate+tonemap backend on the designated frame slice
(the last `min(frameCount, available)` buffered frames) and the capture
still produces a result: with the scalar backend total, the overall capture
is `some`. -/
theorem claim_C1_scalar_fallback (settings : CaptureSettings)
    (buffer : List ImageData) (video : ImageData) (w h : ℕ)
    (hm : settings.mode = CameraMode.night) (hb : buffer ≠ [])
    (hh : settings.enableHDR = true) :
    captureMultiFrame settings buffer video w h none
        = (accumulateAndToneMap
            (jsSliceLast buffer (min settings.frameCount buffer.length)) w h
            (some (min settings.frameCount buffer.length))).map
          (fun toned =>
            (toned, ⟨true, min settings.frameCount buffer.length,
              "webgpu-accumulate-tone-map-v1"⟩))
      ∧ (captureMultiFrame settings buffer video w h none).isSome := by
  have hlen : buffer.length ≠ 0 := fun hc =>
    hb (List.length_eq_zero.mp hc)
  have hcap : captureMultiFrame settings buffer video w h none
      = (accumulateAndToneMap
          (jsSliceLast buffer (min settings.frameCount buffer.length)) w h
          (some (min settings.frameCount buffer.length))).map
        (fun toned =>
          (toned, ⟨true, min settings.frameCount buffer.length,
            "webgpu-accumulate-tone-map-v1"⟩)) := by
    unfold captureMultiFrame
    rw [if_pos hm, if_neg hlen, if_pos hh]
    rfl
  refine ⟨hcap, ?_⟩
  rw [hcap]
  have := accumulateAndToneMap_isSome
    (jsSliceLast buffer (min settings.frameCount buffer.length)) w h
    (some (min settings.frameCount buffer.length))
    (jsSliceLast_ne_nil buffer _ hb)
  simpa using this

theorem claim_C1_witness :
    captureMultiFrame ⟨CameraMode.night, 4, true⟩ [⟨1, 1, fun _ => 0⟩]
        ⟨1, 1, fun _ => 0⟩ 1 1 none
        = (accumulateAndToneMap
            (jsSliceLast [(⟨1, 1, fun _ => 0⟩ : ImageData)] (min 4 1)) 1 1
            (some (min 4 1))).map
          (fun toned => (toned, ⟨true, min 4 1, "webgpu-accumulate-tone-map-v1"⟩))
      ∧ (captureMultiFrame ⟨CameraMode.night, 4, true⟩ [⟨1, 1, fun _ => 0⟩]
          ⟨1, 1, fun _ => 0⟩ 1 1 none).isSome := by
  have h := claim_C1_scalar_fallback ⟨CameraMode.night, 4, true⟩
    [(⟨1, 1, fun _ => 0⟩ : ImageData)] ⟨1, 1, fun _ => 0⟩ 1 1 rfl (by simp) rfl
  exact h

end IndigoCam
